import Mathlib

/-
Verification of the client-side data-presentation contract of the healthcare
consent single-page application: consent lifecycle management, patient roster
pagination and debounced search, patient detail loading, transaction history
formatting, and dashboard statistics.

Each JavaScript function is shallowly embedded as an executable Lean
definition. JavaScript numbers that hold integral machine quantities (epoch
milliseconds, wei amounts, counters, page numbers) are modelled as Int/Nat
with exact arithmetic; Math.floor of a quotient is Int.fdiv (floor division),
and Math.round(x) is floor(x + 1/2). JavaScript string truthiness (null,
undefined and the empty string are falsy) is modelled on Option String.
Asynchronous API calls are modelled by passing their outcome (Except) as an
explicit argument and recording the calls the component issues as a trace.
-/

/-- Truthiness of a JavaScript string-or-null value: null/undefined and the
empty string are falsy, every other string is truthy. -/
def strTruthy : Option String → Bool
  | none => false
  | some s => !s.isEmpty

/-- ASCII lowering of a string, as performed by String.prototype.toLowerCase
on the ASCII inputs this application deals with. -/
def lowerStr (s : String) : String :=
  String.mk (s.toList.map Char.toLower)

/-- Substring test on character lists: does the haystack contain the needle
as a contiguous subsequence? Models String.prototype.includes. -/
def containsSeq (hay needle : List Char) : Bool :=
  match hay with
  | [] => needle.isEmpty
  | _ :: t => needle.isPrefixOf hay || containsSeq t needle

/-- Case-insensitive keyword test: purpose.toLowerCase().includes(kw), with
kw already lowercase, from ConsentManagement. -/
def lowerIncludes (s kw : String) : Bool :=
  containsSeq (lowerStr s).toList kw.toList

/-- getPurposeType from ConsentManagement: classify a consent purpose by
lowercase substring inclusion, first match in the fixed order research,
data sharing, analytics, insurance; fallback other. -/
def getPurposeType (purpose : String) : String :=
  if lowerIncludes purpose "research" then "research"
  else if lowerIncludes purpose "data sharing" then "data-sharing"
  else if lowerIncludes purpose "analytics" then "analytics"
  else if lowerIncludes purpose "insurance" then "insurance"
  else "other"

/-- A consent record as consumed by ConsentManagement (fields read by the
component; optional fields are Option-valued). -/
structure Consent where
  id : String
  patientId : String
  purpose : String
  status : String
  patientWalletAddress : String
  signature : String
  message : String
  createdAt : String
  updatedAt : Option String
  expiresAt : Option String
  blockchainTxHash : Option String
  creator : Option String
deriving DecidableEq

/-- Payload of apiService.createConsent, exactly the consentData object
built in handleCreateConsent. -/
structure ConsentData where
  patientId : String
  purpose : String
  patientWalletAddress : String
  signature : String
  message : String
deriving DecidableEq

/-- Backend calls the consent component can issue through apiService. -/
inductive BackendCall
  | getConsents (statusFilter : Option String)
  | updateConsent (id : String) (status : String)
  | createConsent (data : ConsentData)
deriving DecidableEq

/-- Local state of the ConsentManagement component relevant to the consent
list and the confirmation dialog. -/
structure ConsentState where
  consents : List Consent
  loading : Bool
  error : Option String
  filterStatus : String
  showConfirmDialog : Bool
  selectedConsentId : Option String
  selectedNewStatus : Option String
deriving DecidableEq

/-- Outcomes of the backend calls a consent event may await: the
getConsents response (ok carries response.consents, possibly absent) and
the updateConsent result. -/
structure ApiEnv where
  consentsRes : Except String (Option (List Consent))
  updateRes : Except String Unit

/-- fetchConsents from ConsentManagement: issue getConsents with the status
filter (omitted when the filter is all); on success store
response.consents or an empty list, on failure store the error message and
clear the list. Returns the new state and the calls issued. -/
def fetchConsents (env : ApiEnv) (s : ConsentState) : ConsentState × List BackendCall :=
  let filter := if s.filterStatus == "all" then none else some s.filterStatus
  match env.consentsRes with
  | Except.ok resp =>
    ({ s with loading := false, error := none, consents := resp.getD [] },
     [BackendCall.getConsents filter])
  | Except.error e =>
    ({ s with loading := false,
              error := some (if e.isEmpty then "Failed to fetch consents" else e),
              consents := [] },
     [BackendCall.getConsents filter])

/-- showConfirmation from ConsentManagement: record the pending request and
open the dialog. Issues no backend call. -/
def showConfirmation (consentId newStatus : String) (s : ConsentState) :
    ConsentState × List BackendCall :=
  ({ s with selectedConsentId := some consentId,
            selectedNewStatus := some newStatus,
            showConfirmDialog := true }, [])

/-- handleCancel from ConsentManagement: close the dialog and discard the
pending request. Issues no backend call. -/
def handleCancel (s : ConsentState) : ConsentState × List BackendCall :=
  ({ s with showConfirmDialog := false,
            selectedConsentId := none,
            selectedNewStatus := none }, [])

/-- handleConfirm from ConsentManagement: bail out when either selected
value is falsy; otherwise call updateConsent, and on success refresh via
fetchConsents; the finally block always resets the dialog state. -/
def handleConfirm (env : ApiEnv) (s : ConsentState) : ConsentState × List BackendCall :=
  match s.selectedConsentId, s.selectedNewStatus with
  | some cid, some ns =>
    if cid.isEmpty || ns.isEmpty then (s, [])
    else
      match env.updateRes with
      | Except.error _ =>
        ({ s with showConfirmDialog := false,
                  selectedConsentId := none,
                  selectedNewStatus := none },
         [BackendCall.updateConsent cid ns])
      | Except.ok _ =>
        let refreshed := fetchConsents env s
        ({ refreshed.1 with showConfirmDialog := false,
                            selectedConsentId := none,
                            selectedNewStatus := none },
         BackendCall.updateConsent cid ns :: refreshed.2)
  | _, _ => (s, [])

/-- User/async events on the consent list controller. -/
inductive ConsentEvent
  | fetch (env : ApiEnv)
  | requestChange (consentId newStatus : String)
  | cancel
  | confirm (env : ApiEnv)

/-- One step of the consent list controller: the handler the event invokes,
returning the new state and the backend calls issued. -/
def consentStep (s : ConsentState) : ConsentEvent → ConsentState × List BackendCall
  | ConsentEvent.fetch env => fetchConsents env s
  | ConsentEvent.requestChange cid ns => showConfirmation cid ns s
  | ConsentEvent.cancel => handleCancel s
  | ConsentEvent.confirm env => handleConfirm env s

/-- The create-consent form fields. -/
structure FormData where
  patientId : String
  purpose : String
deriving DecidableEq

/-- Observable outcome of one run of handleCreateConsent: the messages
passed to the wallet signMessage collaborator, the backend calls issued,
and whether the flow completed successfully. -/
structure CreateOutcome where
  signedMessages : List String
  backendCalls : List BackendCall
  success : Bool
deriving DecidableEq

/-- The canonical message string built by handleCreateConsent. -/
def consentMessage (patientId purpose : String) : String :=
  "I consent to: " ++ purpose ++ " for patient: " ++ patientId

/-- handleCreateConsent from ConsentManagement. Guards: a falsy account or
an empty form field returns before signing or any network call. Otherwise
the canonical message is signed; a signing failure aborts with no backend
call; on success createConsent is called with the exact payload, and a
successful creation is followed by a fetchConsents refresh (getConsents
with the current status filter). The sign and create outcomes are passed
in as Except values. -/
def handleCreateConsent (account : Option String) (form : FormData)
    (signRes : Except String String) (createRes : Except String Unit)
    (statusFilter : Option String) : CreateOutcome :=
  if !(strTruthy account) then ⟨[], [], false⟩
  else if form.patientId.isEmpty || form.purpose.isEmpty then ⟨[], [], false⟩
  else
    let message := consentMessage form.patientId form.purpose
    match signRes with
    | Except.error _ => ⟨[message], [], false⟩
    | Except.ok signature =>
      let data : ConsentData :=
        ⟨form.patientId, form.purpose, (account.getD ""), signature, message⟩
      match createRes with
      | Except.error _ => ⟨[message], [BackendCall.createConsent data], false⟩
      | Except.ok _ =>
        ⟨[message],
         [BackendCall.createConsent data, BackendCall.getConsents statusFilter],
         true⟩

/-- The page-numbers window rendered by PatientList: Array.from of length
min(5, totalPages), each slot holding the pageNum computed by the if
cascade of the source. -/
def pageWindow (totalPages currentPage : Nat) : List Nat :=
  (List.range (min 5 totalPages)).map (fun i =>
    if totalPages ≤ 5 then i + 1
    else if currentPage ≤ 3 then i + 1
    else if totalPages - 2 ≤ currentPage then totalPages - 4 + i
    else currentPage - 2 + i)

/-- Is the list a contiguous run of successive naturals? -/
def contiguousB : List Nat → Bool
  | [] => true
  | [_] => true
  | a :: b :: t => (b == a + 1) && contiguousB (b :: t)

/-- The full window property asserted of pageWindow: length min(5, tp),
contiguity, membership of the current page, bounds, and the exact value of
the window in each branch of the cascade. -/
def windowSpec (tp cp : Nat) : Prop :=
  (pageWindow tp cp).length = min 5 tp ∧
  contiguousB (pageWindow tp cp) = true ∧
  cp ∈ pageWindow tp cp ∧
  (∀ p ∈ pageWindow tp cp, 1 ≤ p ∧ p ≤ tp) ∧
  (tp ≤ 5 → pageWindow tp cp = List.range' 1 tp) ∧
  (5 < tp → cp ≤ 3 → pageWindow tp cp = List.range' 1 5) ∧
  (5 < tp → 3 < cp → tp - 2 ≤ cp → pageWindow tp cp = List.range' (tp - 4) 5) ∧
  (5 < tp → 3 < cp → cp < tp - 2 → pageWindow tp cp = List.range' (cp - 2) 5)

/-- Timed trace semantics of the debounce helper in PatientList: each call
restarts the single timer. A call fires its wrapped function wait
milliseconds later unless a later call arrives strictly before that
moment. Calls are listed in chronological order as (time, value). -/
def debounceFires (wait : Nat) : List (Nat × String) → List (Nat × String)
  | [] => []
  | [c] => [(c.1 + wait, c.2)]
  | c :: d :: rest =>
    (if c.1 + wait ≤ d.1 then [(c.1 + wait, c.2)] else []) ++
      debounceFires wait (d :: rest)

/-- A keystroke trace is rapid when times strictly increase and each gap is
under 300 ms. -/
def rapidB : List (Nat × String) → Bool
  | [] => true
  | [_] => true
  | c :: d :: rest => (c.1 < d.1 && d.1 < c.1 + 300) && rapidB (d :: rest)

/-- The PatientList local state the debounced search callback touches. -/
structure PatientListState where
  searchTerm : String
  currentPage : Nat
deriving DecidableEq

/-- Body of handleSearchChange in PatientList: store the new search term
and reset pagination to page 1. -/
def searchCallback (value : String) (s : PatientListState) : PatientListState :=
  { s with searchTerm := value, currentPage := 1 }

/-- A patient record as consumed by PatientDetail. -/
structure Patient where
  id : String
  patientId : String
  name : String
  email : String
  phone : String
  dateOfBirth : String
  gender : String
  address : String
  walletAddress : Option String
  createdAt : String
deriving DecidableEq

/-- A medical record as consumed by PatientDetail. -/
structure MedRecord where
  id : String
  title : String
  recordType : String
  status : String
  date : String
  doctor : String
  hospital : String
  description : String
  blockchainHash : Option String
deriving DecidableEq

/-- Local state of the PatientDetail component. -/
structure PDState where
  patient : Option Patient
  records : List MedRecord
  loading : Bool
  error : Option String
deriving DecidableEq

/-- err.message with its JavaScript fallback default when falsy. -/
def errOrDefault (e msg : String) : String :=
  if e.isEmpty then msg else e

/-- fetchPatientData from PatientDetail: await getPatient, store it, await
getPatientRecords, store response.records or an empty list; any thrown
error lands in the catch block which stores the message and clears both
patient and records; finally clears loading. getPatient may resolve with
an empty (null) patient, modelled as ok none. -/
def fetchPatientData (patientRes : Except String (Option Patient))
    (recordsRes : Except String (Option (List MedRecord))) (s : PDState) : PDState :=
  match patientRes with
  | Except.error e =>
    { s with error := some (errOrDefault e "Failed to load patient data"),
             patient := none, records := [], loading := false }
  | Except.ok pOpt =>
    match recordsRes with
    | Except.error e =>
      { s with error := some (errOrDefault e "Failed to load patient data"),
               patient := none, records := [], loading := false }
    | Except.ok rOpt =>
      { s with patient := pOpt, records := rOpt.getD [],
               error := none, loading := false }

/-- What the PatientDetail component renders. -/
inductive PDView
  | loadingView
  | errorView (msg : String)
  | detailView (p : Patient) (records : List MedRecord)

/-- The error text rendered: error || Patient not found. -/
def errTextOr (o : Option String) : String :=
  match o with
  | some e => if e.isEmpty then "Patient not found" else e
  | none => "Patient not found"

/-- The render branches of PatientDetail: loading, then the error branch
when error is truthy or patient is falsy, else the detail view. -/
def renderPatientDetail (s : PDState) : PDView :=
  if s.loading then PDView.loadingView
  else
    match s.patient with
    | none => PDView.errorView ("Error loading patient: " ++ errTextOr s.error)
    | some p =>
      if strTruthy s.error then
        PDView.errorView ("Error loading patient: " ++ errTextOr s.error)
      else PDView.detailView p s.records

/-- The medical records carried by a rendered view; the loading and error
views render none. -/
def viewRecords : PDView → List MedRecord
  | PDView.detailView _ rs => rs
  | _ => []

/-- A timestamp value as it reaches formatTimeAgo: nullish covers the falsy
inputs (null, undefined, empty string), invalid a non-empty string that
parses to an invalid Date, valid an input parsing to the given epoch
milliseconds. -/
inductive JsTimestamp
  | nullish
  | invalid
  | valid (ms : Int)
deriving DecidableEq

/-- Short month names as produced by toLocaleDateString en-US. -/
def monthNameEnUS (m : Nat) : String :=
  match m with
  | 1 => "Jan" | 2 => "Feb" | 3 => "Mar" | 4 => "Apr"
  | 5 => "May" | 6 => "Jun" | 7 => "Jul" | 8 => "Aug"
  | 9 => "Sep" | 10 => "Oct" | 11 => "Nov" | _ => "Dec"

/-- Proleptic Gregorian civil date (year, month, day) from a count of days
since the Unix epoch. -/
def civilFromDays (z0 : Int) : Int × Nat × Nat :=
  let z := z0 + 719468
  let era := z.fdiv 146097
  let doe := (z - era * 146097).toNat
  let yoe := (doe - doe / 1460 + doe / 36524 - doe / 146096) / 365
  let doy := doe - (365 * yoe + yoe / 4 - yoe / 100)
  let mp := (5 * doy + 2) / 153
  let d := doy - (153 * mp + 2) / 5 + 1
  let m := if mp < 10 then mp + 3 else mp - 9
  (era * 400 + (yoe : Int) + (if m ≤ 2 then 1 else 0), m, d)

/-- The short calendar date rendered by toLocaleDateString en-US with short
month and numeric day, at UTC, from epoch milliseconds. -/
def shortDateEnUS (ms : Int) : String :=
  let c := civilFromDays (ms.fdiv 86400000)
  monthNameEnUS c.2.1 ++ " " ++ toString c.2.2

/-- formatTimeAgo from TransactionHistory: falsy or unparseable timestamps
yield the empty string; otherwise the difference now - date is bucketed by
Math.floor quotients into Just now, minutes, hours, days, or the short
calendar date. -/
def formatTimeAgo : JsTimestamp → Int → String
  | JsTimestamp.nullish, _ => ""
  | JsTimestamp.invalid, _ => ""
  | JsTimestamp.valid ms, now =>
    if (now - ms).fdiv 60000 < 1 then "Just now"
    else if (now - ms).fdiv 60000 < 60 then
      toString ((now - ms).fdiv 60000) ++ "m ago"
    else if (now - ms).fdiv 3600000 < 24 then
      toString ((now - ms).fdiv 3600000) ++ "h ago"
    else if (now - ms).fdiv 86400000 < 7 then
      toString ((now - ms).fdiv 86400000) ++ "d ago"
    else shortDateEnUS ms

/-- Exactly four decimal digits of a fraction below 10000, zero padded. -/
def digitChar4 (f : Nat) : String :=
  String.mk [Nat.digitChar (f / 1000 % 10), Nat.digitChar (f / 100 % 10),
             Nat.digitChar (f / 10 % 10), Nat.digitChar (f % 10)]

/-- (n / 1e18).toFixed(4) for a positive integral wei amount n, in exact
arithmetic: round n / 1e14 to the nearest integer (half up) and render it
with four decimal places. -/
def toFixed4Div1e18 (n : Int) : String :=
  let r := (n + 50000000000000) / 100000000000000
  toString (r / 10000) ++ "." ++ digitChar4 (r % 10000).toNat

/-- formatAmount from TransactionHistory on an integral amount: a falsy
(zero) amount yields the bare string 0; an amount above 1e15 is treated as
wei, divided by 1e18 and rendered with four decimals before the currency;
anything else is passed through unscaled before the currency. -/
def formatAmount (amount : Int) (currency : String) : String :=
  if amount = 0 then "0"
  else if amount > 1000000000000000 then toFixed4Div1e18 amount ++ " " ++ currency
  else toString amount ++ " " ++ currency

/-- The aggregate snapshot rendered by StatsDashboard. -/
structure PlatformStats where
  totalPatients : Nat
  totalRecords : Nat
  totalConsents : Nat
  activeConsents : Nat
  pendingConsents : Nat
  totalTransactions : Nat
deriving DecidableEq

/-- Math.round(num / den) for naturals with den positive, in exact
arithmetic: floor(num / den + 1/2). -/
def jsRound (num den : Nat) : Nat :=
  (2 * num + den) / (2 * den)

/-- The Avg Records per Patient summary value of StatsDashboard. -/
def avgRecordsDisplay (s : PlatformStats) : String :=
  if 0 < s.totalPatients then toString (jsRound s.totalRecords s.totalPatients)
  else "0"

/-- The Consent Activity summary value of StatsDashboard. -/
def consentActivityDisplay (s : PlatformStats) : String :=
  if 0 < s.totalConsents then
    toString (jsRound (100 * s.activeConsents) s.totalConsents) ++ "% Active"
  else "No data"

/-- C10: getPurposeType tests lowercase substring inclusion in the fixed
priority order research, data sharing, analytics, insurance and returns
the category of the first match (other if none); in particular the form
option Data Sharing with Research Institution, which contains two
keywords, is classified research because the earlier keyword wins. -/
theorem purpose_priority :
    ∀ p : String,
      (lowerIncludes p "research" = true → getPurposeType p = "research") ∧
      (lowerIncludes p "research" = false → lowerIncludes p "data sharing" = true →
        getPurposeType p = "data-sharing") ∧
      (lowerIncludes p "research" = false → lowerIncludes p "data sharing" = false →
        lowerIncludes p "analytics" = true → getPurposeType p = "analytics") ∧
      (lowerIncludes p "research" = false → lowerIncludes p "data sharing" = false →
        lowerIncludes p "analytics" = false → lowerIncludes p "insurance" = true →
        getPurposeType p = "insurance") ∧
      (lowerIncludes p "research" = false → lowerIncludes p "data sharing" = false →
        lowerIncludes p "analytics" = false → lowerIncludes p "insurance" = false →
        getPurposeType p = "other") ∧
      getPurposeType "Data Sharing with Research Institution" = "research" := by
  intro p
  refine ⟨?_, ?_, ?_, ?_, ?_, by decide⟩ <;>
    · intros
      simp [getPurposeType, *]

/-- Witness for purpose_priority: concrete classifications obtained by
instantiating the theorem. -/
theorem purpose_priority_witness :
    getPurposeType "Data Sharing with Research Institution" = "research" ∧
    getPurposeType "Third-Party Analytics Access" = "analytics" ∧
    getPurposeType "Healthcare Quality Improvement" = "other" :=
  ⟨(purpose_priority "Data Sharing with Research Institution").1 (by decide),
   (purpose_priority "Third-Party Analytics Access").2.2.1 (by decide) (by decide) (by decide),
   (purpose_priority "Healthcare Quality Improvement").2.2.2.2.1
     (by decide) (by decide) (by decide) (by decide)⟩

/-- C7: the StatsDashboard summary metrics guard division by zero: with no
patients the Avg Records per Patient value renders 0, with no consents the
consent-activity summary renders No data, and otherwise the activity
summary renders the rounded active/total percentage. -/
theorem stats_guard :
    ∀ s : PlatformStats,
      (s.totalPatients = 0 → avgRecordsDisplay s = "0") ∧
      (s.totalConsents = 0 → consentActivityDisplay s = "No data") ∧
      (0 < s.totalConsents →
        consentActivityDisplay s =
          toString (jsRound (100 * s.activeConsents) s.totalConsents) ++ "% Active") ∧
      (0 < s.totalPatients →
        avgRecordsDisplay s = toString (jsRound s.totalRecords s.totalPatients)) := by
  intro s
  refine ⟨?_, ?_, ?_, ?_⟩ <;>
    · intro h
      simp [avgRecordsDisplay, consentActivityDisplay, h]

/-- Witness for stats_guard: the empty snapshot renders the guarded values,
and a populated snapshot renders the rounded percentage. -/
theorem stats_guard_witness :
    avgRecordsDisplay ⟨0, 7, 0, 0, 0, 0⟩ = "0" ∧
    consentActivityDisplay ⟨0, 7, 0, 0, 0, 0⟩ = "No data" ∧
    consentActivityDisplay ⟨3, 7, 8, 5, 1, 2⟩ =
      toString (jsRound (100 * 5) 8) ++ "% Active" :=
  ⟨(stats_guard ⟨0, 7, 0, 0, 0, 0⟩).1 rfl,
   (stats_guard ⟨0, 7, 0, 0, 0, 0⟩).2.1 rfl,
   (stats_guard ⟨3, 7, 8, 5, 1, 2⟩).2.2.1 (by decide)⟩

/-- C6 counterexample: a zero amount is a numeric amount not greater than
1e15, yet formatAmount returns the bare string 0 rather than the amount
followed by the currency. -/
theorem formatAmount_zero_counterexample :
    formatAmount 0 "ETH" = "0" ∧
    formatAmount 0 "ETH" ≠ toString (0 : Int) ++ " ETH" := by
  decide

/-- C6 amended: an amount greater than 1e15 is divided by 1e18 and rendered
with exactly four decimal places followed by the currency; a nonzero
amount not above 1e15 is passed through unscaled followed by the currency;
a zero (falsy) amount yields the bare string 0 with no currency. The
spec examples evaluate as stated. -/
theorem formatAmount_amended :
    ∀ (n : Int) (currency : String),
      (n = 0 → formatAmount n currency = "0") ∧
      (n ≠ 0 → n ≤ 1000000000000000 →
        formatAmount n currency = toString n ++ " " ++ currency) ∧
      (1000000000000000 < n →
        formatAmount n currency = toFixed4Div1e18 n ++ " " ++ currency) ∧
      formatAmount 2000000000000000000 "ETH" = "2.0000 ETH" ∧
      formatAmount 5 "ETH" = "5 ETH" := by
  intro n currency
  refine ⟨?_, ?_, ?_, by decide, by decide⟩
  · intro h
    simp [formatAmount, h]
  · intro h1 h2
    rw [formatAmount, if_neg h1, if_neg (by omega)]
  · intro h
    rw [formatAmount, if_neg (by omega), if_pos (by omega)]

/-- Witness for formatAmount_amended: the three branches instantiated at
concrete amounts. -/
theorem formatAmount_amended_witness :
    formatAmount 0 "DAI" = "0" ∧
    formatAmount 5 "DAI" = toString (5 : Int) ++ " " ++ "DAI" ∧
    formatAmount 2000000000000000000 "DAI" =
      toFixed4Div1e18 2000000000000000000 ++ " " ++ "DAI" :=
  ⟨(formatAmount_amended 0 "DAI").1 rfl,
   (formatAmount_amended 5 "DAI").2.1 (by decide) (by decide),
   (formatAmount_amended 2000000000000000000 "DAI").2.2.1 (by decide)⟩

/-- When every slot of the pageNum cascade evaluates to st + i, the window
is the arithmetic progression starting at st. -/
theorem pageWindow_branch (tp cp st : Nat)
    (hb : ∀ i, i < min 5 tp →
      (if tp ≤ 5 then i + 1
       else if cp ≤ 3 then i + 1
       else if tp - 2 ≤ cp then tp - 4 + i
       else cp - 2 + i) = st + i) :
    pageWindow tp cp = List.range' st (min 5 tp) := by
  unfold pageWindow
  rw [List.range'_eq_map_range]
  exact List.map_congr_left fun i hi => hb i (List.mem_range.mp hi)

/-- With at most five pages the window is all pages 1 to totalPages. -/
theorem pageWindow_small (tp cp : Nat) (h : tp ≤ 5) :
    pageWindow tp cp = List.range' 1 tp := by
  have hm : min 5 tp = tp := by omega
  have hw := pageWindow_branch tp cp 1 (fun i _ => by simp [h, Nat.add_comm])
  rwa [hm] at hw

/-- Near the start of a long roster the window is pages 1 to 5. -/
theorem pageWindow_first (tp cp : Nat) (h5 : ¬ tp ≤ 5) (h3 : cp ≤ 3) :
    pageWindow tp cp = List.range' 1 5 := by
  have hm : min 5 tp = 5 := by omega
  have hw := pageWindow_branch tp cp 1 (fun i _ => by simp [h5, h3, Nat.add_comm])
  rwa [hm] at hw

/-- Near the end of a long roster the window is the last five pages. -/
theorem pageWindow_last (tp cp : Nat) (h5 : ¬ tp ≤ 5) (h3 : ¬ cp ≤ 3)
    (hl : tp - 2 ≤ cp) : pageWindow tp cp = List.range' (tp - 4) 5 := by
  have hm : min 5 tp = 5 := by omega
  have hw := pageWindow_branch tp cp (tp - 4) (fun i _ => by simp [h5, h3, hl])
  rwa [hm] at hw

/-- In the middle of a long roster the window is centred on currentPage. -/
theorem pageWindow_mid (tp cp : Nat) (h5 : ¬ tp ≤ 5) (h3 : ¬ cp ≤ 3)
    (hm2 : ¬ tp - 2 ≤ cp) : pageWindow tp cp = List.range' (cp - 2) 5 := by
  have hm : min 5 tp = 5 := by omega
  have hw := pageWindow_branch tp cp (cp - 2) (fun i _ => by simp [h5, h3, hm2])
  rwa [hm] at hw

/-- An interval of consecutive naturals is a contiguous run. -/
theorem contiguousB_range' : ∀ (n s : Nat), contiguousB (List.range' s n) = true := by
  intro n
  induction n with
  | zero => intro s; rfl
  | succ m ih =>
    intro s
    cases m with
    | zero => rfl
    | succ k =>
      rw [List.range'_succ, List.range'_succ]
      simp only [contiguousB]
      rw [← List.range'_succ]
      simp [ih (s + 1)]

/-- C4: for every totalPages between 1 and 100 and currentPage between 1
and totalPages, the PatientList page-number window has length
min(5, totalPages), is a contiguous run, contains currentPage, stays
within bounds, and equals the branch value of the cascade: all pages when
totalPages is at most 5, pages 1 to 5 when currentPage is at most 3, the
last five pages when currentPage is at least totalPages minus 2, and the
five pages centred on currentPage otherwise. -/
theorem pageWindow_spec : ∀ tp ≤ 100, ∀ cp ≤ tp, 1 ≤ cp → windowSpec tp cp := by
  intro tp htp cp hcp h1
  unfold windowSpec
  by_cases h5 : tp ≤ 5
  · have w := pageWindow_small tp cp h5
    refine ⟨?_, ?_, ?_, ?_, fun _ => w, fun hh => absurd hh (by omega),
      fun hh => absurd hh (by omega), fun hh => absurd hh (by omega)⟩
    · rw [w, List.length_range']; omega
    · rw [w]; exact contiguousB_range' tp 1
    · rw [w]; exact List.mem_range'_1.mpr ⟨h1, by omega⟩
    · intro p hp
      rw [w] at hp
      have hb := List.mem_range'_1.mp hp
      omega
  · by_cases h3 : cp ≤ 3
    · have w := pageWindow_first tp cp h5 h3
      refine ⟨?_, ?_, ?_, ?_, fun hh => absurd hh h5, fun _ _ => w,
        fun _ hh => absurd hh (by omega), fun _ hh => absurd hh (by omega)⟩
      · rw [w, List.length_range']; omega
      · rw [w]; exact contiguousB_range' 5 1
      · rw [w]; exact List.mem_range'_1.mpr ⟨h1, by omega⟩
      · intro p hp
        rw [w] at hp
        have hb := List.mem_range'_1.mp hp
        omega
    · by_cases hl : tp - 2 ≤ cp
      · have w := pageWindow_last tp cp h5 h3 hl
        refine ⟨?_, ?_, ?_, ?_, fun hh => absurd hh h5, fun _ hh => absurd hh h3,
          fun _ _ _ => w, fun _ _ hh => absurd hh (by omega)⟩
        · rw [w, List.length_range']; omega
        · rw [w]; exact contiguousB_range' 5 (tp - 4)
        · rw [w]; exact List.mem_range'_1.mpr ⟨by omega, by omega⟩
        · intro p hp
          rw [w] at hp
          have hb := List.mem_range'_1.mp hp
          omega
      · have w := pageWindow_mid tp cp h5 h3 hl
        refine ⟨?_, ?_, ?_, ?_, fun hh => absurd hh h5, fun _ hh => absurd hh h3,
          fun _ _ hh => absurd hh hl, fun _ _ _ => w⟩
        · rw [w, List.length_range']; omega
        · rw [w]; exact contiguousB_range' 5 (cp - 2)
        · rw [w]; exact List.mem_range'_1.mpr ⟨by omega, by omega⟩
        · intro p hp
          rw [w] at hp
          have hb := List.mem_range'_1.mp hp
          omega

/-- Witness for pageWindow_spec: the window property at ten total pages and
current page seven. -/
theorem pageWindow_spec_witness : windowSpec 10 7 :=
  pageWindow_spec 10 (by decide) 7 (by decide) (by decide)

/-- C1: for every state and every consentId/newStatus pair, a
requestStatusChange (showConfirmation) followed by cancel (handleCancel)
issues zero backend calls and leaves the consent list unchanged, the final
state being the initial state with the dialog fields cleared; moreover no
event other than an explicit confirm ever issues an updateConsent call. -/
theorem consent_two_phase :
    ∀ (s : ConsentState) (cid ns : String),
      (consentStep s (ConsentEvent.requestChange cid ns)).2 = [] ∧
      (consentStep (consentStep s (ConsentEvent.requestChange cid ns)).1
        ConsentEvent.cancel).2 = [] ∧
      (consentStep (consentStep s (ConsentEvent.requestChange cid ns)).1
        ConsentEvent.cancel).1 =
        { s with showConfirmDialog := false, selectedConsentId := none,
                 selectedNewStatus := none } ∧
      (consentStep (consentStep s (ConsentEvent.requestChange cid ns)).1
        ConsentEvent.cancel).1.consents = s.consents ∧
      (∀ (s2 : ConsentState) (e : ConsentEvent) (cid2 st2 : String),
        BackendCall.updateConsent cid2 st2 ∈ (consentStep s2 e).2 →
        ∃ env, e = ConsentEvent.confirm env) := by
  intro s cid ns
  refine ⟨rfl, rfl, rfl, rfl, ?_⟩
  intro s2 e cid2 st2 hmem
  cases e with
  | fetch env =>
    cases h : env.consentsRes <;>
      simp [consentStep, fetchConsents, h] at hmem
  | requestChange c n => simp [consentStep, showConfirmation] at hmem
  | cancel => simp [consentStep, handleCancel] at hmem
  | confirm env => exact ⟨env, rfl⟩

/-- Witness for consent_two_phase: the round trip at a concrete state, and
the only-confirm property discharged at a concrete confirm event. -/
theorem consent_two_phase_witness :
    (consentStep (consentStep ⟨[], false, none, "all", false, none, none⟩
      (ConsentEvent.requestChange "c-1" "active")).1 ConsentEvent.cancel).1.consents =
      ([] : List Consent) ∧
    (∃ env, ConsentEvent.confirm ⟨Except.ok (some []), Except.ok ()⟩ =
      ConsentEvent.confirm env) :=
  ⟨(consent_two_phase ⟨[], false, none, "all", false, none, none⟩ "c-1" "active").2.2.2.1,
   (consent_two_phase ⟨[], false, none, "all", false, none, none⟩ "c-1" "active").2.2.2.2
     ⟨[], false, none, "all", true, some "c-1", some "active"⟩
     (ConsentEvent.confirm ⟨Except.ok (some []), Except.ok ()⟩) "c-1" "active"
     (by decide)⟩

/-- C2: for every connected (truthy) account, non-empty patientId and
non-empty purpose, when signing succeeds with signature sig the first
backend call of the create flow is createConsent with payload exactly
patientId, purpose, patientWalletAddress the account, signature sig, and
the canonical message built from purpose and patientId. -/
theorem create_consent_payload :
    ∀ (acct pid purpose sig : String) (createRes : Except String Unit)
      (filt : Option String),
      acct.isEmpty = false → pid.isEmpty = false → purpose.isEmpty = false →
      (handleCreateConsent (some acct) ⟨pid, purpose⟩ (Except.ok sig) createRes
        filt).backendCalls.head? =
        some (BackendCall.createConsent
          ⟨pid, purpose, acct, sig, consentMessage pid purpose⟩) := by
  intro acct pid purpose sig createRes filt h1 h2 h3
  cases createRes <;>
    simp [handleCreateConsent, strTruthy, h1, h2, h3]

/-- Witness for create_consent_payload: the create-consent scenario of the
spec, with the payload containing the canonical message for patient P-001
and purpose Research Study Participation. -/
theorem create_consent_payload_witness :
    (handleCreateConsent (some "0xABCD...1234")
      ⟨"P-001", "Research Study Participation"⟩ (Except.ok "0xSIG")
      (Except.ok ()) none).backendCalls.head? =
      some (BackendCall.createConsent
        ⟨"P-001", "Research Study Participation", "0xABCD...1234", "0xSIG",
         "I consent to: Research Study Participation for patient: P-001"⟩) :=
  create_consent_payload "0xABCD...1234" "P-001" "Research Study Participation"
    "0xSIG" (Except.ok ()) none rfl rfl rfl

/-- C3: the create-consent flow short-circuits with no signing attempt and
no backend call when the wallet is missing (falsy account) or a form field
is empty, and a signing failure aborts the flow with no backend call. -/
theorem create_consent_guards :
    ∀ (account : Option String) (form : FormData) (signRes : Except String String)
      (createRes : Except String Unit) (filt : Option String),
      (strTruthy account = false →
        handleCreateConsent account form signRes createRes filt = ⟨[], [], false⟩) ∧
      ((form.patientId.isEmpty || form.purpose.isEmpty) = true →
        handleCreateConsent account form signRes createRes filt = ⟨[], [], false⟩) ∧
      (∀ e, signRes = Except.error e →
        (handleCreateConsent account form signRes createRes filt).backendCalls = []) := by
  intro account form signRes createRes filt
  refine ⟨?_, ?_, ?_⟩
  · intro h
    simp [handleCreateConsent, h]
  · intro h
    cases ha : strTruthy account <;> simp [handleCreateConsent, ha, h]
  · intro e he
    subst he
    cases ha : strTruthy account <;>
      cases hf : (form.patientId.isEmpty || form.purpose.isEmpty) <;>
        simp [handleCreateConsent, ha, hf]

/-- Witness for create_consent_guards: a missing wallet, an empty field,
and a rejected signature, each at concrete inputs. -/
theorem create_consent_guards_witness :
    handleCreateConsent none ⟨"P-001", "Research Study Participation"⟩
      (Except.ok "0xSIG") (Except.ok ()) none = ⟨[], [], false⟩ ∧
    handleCreateConsent (some "0xABCD...1234") ⟨"", "Research Study Participation"⟩
      (Except.ok "0xSIG") (Except.ok ()) none = ⟨[], [], false⟩ ∧
    (handleCreateConsent (some "0xABCD...1234") ⟨"P-001", "Research Study Participation"⟩
      (Except.error "User rejected the request") (Except.ok ()) none).backendCalls = [] :=
  ⟨(create_consent_guards none ⟨"P-001", "Research Study Participation"⟩
      (Except.ok "0xSIG") (Except.ok ()) none).1 rfl,
   (create_consent_guards (some "0xABCD...1234") ⟨"", "Research Study Participation"⟩
      (Except.ok "0xSIG") (Except.ok ()) none).2.1 rfl,
   (create_consent_guards (some "0xABCD...1234") ⟨"P-001", "Research Study Participation"⟩
      (Except.error "User rejected the request") (Except.ok ()) none).2.2
      "User rejected the request" rfl⟩

/-- C8: if the patient fetch fails or returns empty, PatientDetail renders
the not-found error branch and the rendered state carries no medical
records, for every records-fetch outcome and starting state. -/
theorem patient_detail_not_found :
    ∀ (patientRes : Except String (Option Patient))
      (recordsRes : Except String (Option (List MedRecord))) (s : PDState),
      ((∃ e, patientRes = Except.error e) ∨ patientRes = Except.ok none) →
      (∃ msg, renderPatientDetail (fetchPatientData patientRes recordsRes s) =
        PDView.errorView msg) ∧
      viewRecords (renderPatientDetail (fetchPatientData patientRes recordsRes s)) = [] := by
  intro pr rr s h
  rcases h with ⟨e, rfl⟩ | rfl
  · exact ⟨⟨_, rfl⟩, rfl⟩
  · cases rr <;> exact ⟨⟨_, rfl⟩, rfl⟩

/-- Witness for patient_detail_not_found: a failing patient fetch at a
concrete state renders the error view with no records. -/
theorem patient_detail_not_found_witness :
    (∃ msg, renderPatientDetail (fetchPatientData (Except.error "Network Error")
      (Except.ok none) ⟨none, [], true, none⟩) = PDView.errorView msg) ∧
    viewRecords (renderPatientDetail (fetchPatientData (Except.error "Network Error")
      (Except.ok none) ⟨none, [], true, none⟩)) = [] :=
  patient_detail_not_found (Except.error "Network Error") (Except.ok none)
    ⟨none, [], true, none⟩ (Or.inl ⟨"Network Error", rfl⟩)

/-- C9: for every nonempty keystroke trace whose consecutive gaps are all
under 300 ms, the debounced search fires exactly once, with the final
input value, at 300 ms after the last keystroke; and the fired callback
stores the term and resets pagination to page 1. -/
theorem debounced_search_single_fire :
    ∀ (calls : List (Nat × String)) (h : calls ≠ []),
      rapidB calls = true →
      debounceFires 300 calls = [((calls.getLast h).1 + 300, (calls.getLast h).2)] ∧
      (∀ v s, searchCallback v s = { searchTerm := v, currentPage := 1 }) := by
  intro calls
  induction calls with
  | nil => intro h hr; exact absurd rfl h
  | cons c rest ih =>
    intro h hr
    refine ⟨?_, fun v s => rfl⟩
    cases rest with
    | nil => rfl
    | cons d t =>
      simp only [rapidB, Bool.and_eq_true, decide_eq_true_eq] at hr
      obtain ⟨⟨hlt, hgap⟩, hrest⟩ := hr
      have hfire := (ih (by simp) hrest).1
      simp only [debounceFires, if_neg (by omega : ¬ c.1 + 300 ≤ d.1),
        List.nil_append, hfire]
      exact congrArg (fun p : Nat × String => [(p.1 + 300, p.2)])
        (List.getLast_cons (by simp)).symm

/-- Witness for debounced_search_single_fire: the keystroke trace of the
spec at 0, 100, 150 and 200 ms fires once at 500 ms with the final value,
and the callback resets the page. -/
theorem debounced_search_single_fire_witness :
    debounceFires 300 [(0, "a"), (100, "ab"), (150, "abc"), (200, "abcd")] =
      [(500, "abcd")] ∧
    (∀ v s, searchCallback v s = { searchTerm := v, currentPage := 1 }) :=
  debounced_search_single_fire [(0, "a"), (100, "ab"), (150, "abc"), (200, "abcd")]
    (by simp) (by decide)

/-- C5: formatTimeAgo is empty on nullish and invalid timestamps and never
throws; on a valid timestamp the difference now minus the timestamp is
bucketed exactly as specified: below one minute Just now, below sixty
minutes the floored minutes, below twenty-four hours the floored hours,
below seven days the floored days, otherwise the short calendar date. -/
theorem formatTimeAgo_spec :
    ∀ (ms now : Int),
      formatTimeAgo JsTimestamp.nullish now = "" ∧
      formatTimeAgo JsTimestamp.invalid now = "" ∧
      (now - ms < 60000 → formatTimeAgo (JsTimestamp.valid ms) now = "Just now") ∧
      (60000 ≤ now - ms → now - ms < 3600000 →
        formatTimeAgo (JsTimestamp.valid ms) now =
          toString ((now - ms).fdiv 60000) ++ "m ago") ∧
      (3600000 ≤ now - ms → now - ms < 86400000 →
        formatTimeAgo (JsTimestamp.valid ms) now =
          toString ((now - ms).fdiv 3600000) ++ "h ago") ∧
      (86400000 ≤ now - ms → now - ms < 604800000 →
        formatTimeAgo (JsTimestamp.valid ms) now =
          toString ((now - ms).fdiv 86400000) ++ "d ago") ∧
      (604800000 ≤ now - ms →
        formatTimeAgo (JsTimestamp.valid ms) now = shortDateEnUS ms) := by
  intro ms now
  have e1 : (now - ms).fdiv 60000 = (now - ms) / 60000 :=
    Int.fdiv_eq_ediv _ (by norm_num)
  have e2 : (now - ms).fdiv 3600000 = (now - ms) / 3600000 :=
    Int.fdiv_eq_ediv _ (by norm_num)
  have e3 : (now - ms).fdiv 86400000 = (now - ms) / 86400000 :=
    Int.fdiv_eq_ediv _ (by norm_num)
  refine ⟨rfl, rfl, ?_, ?_, ?_, ?_, ?_⟩ <;>
    · intros
      simp only [formatTimeAgo, e1, e2, e3]
      split_ifs <;> first | rfl | (exfalso; omega)

/-- Witness for formatTimeAgo_spec: the spec scenarios thirty seconds, five
minutes and three hours before a concrete now, plus an invalid timestamp. -/
theorem formatTimeAgo_spec_witness :
    formatTimeAgo JsTimestamp.invalid 1000000000 = "" ∧
    formatTimeAgo (JsTimestamp.valid 999970000) 1000000000 = "Just now" ∧
    formatTimeAgo (JsTimestamp.valid 999700000) 1000000000 = "5m ago" ∧
    formatTimeAgo (JsTimestamp.valid 989200000) 1000000000 = "3h ago" :=
  ⟨(formatTimeAgo_spec 0 1000000000).2.1,
   (formatTimeAgo_spec 999970000 1000000000).2.2.1 (by decide),
   (formatTimeAgo_spec 999700000 1000000000).2.2.2.1 (by decide) (by decide),
   (formatTimeAgo_spec 989200000 1000000000).2.2.2.2.1 (by decide) (by decide)⟩
